import Mathlib

set_option maxHeartbeats 1000000

/-!
Shallow embedding of the Stripe → Frontegg webhook bridge.

Embedded sources:

* `src/_lib/frontegg.js` — the Frontegg API client: vendor-token acquisition,
  user lookup by email, account (tenant) creation, user creation, entitlement
  creation.  Each operation performs one outbound HTTP call; the outcome of
  that call is an input of the model (`Except AxiosErr α`), and the operation
  transforms it exactly as the `try/catch` in the source does: success data is
  returned, a lookup 404 is re-thrown as the axios error itself, and every
  other failure is replaced by a fresh `new Error(msg)` that carries no
  `response` field.
* `src/unnamed/part_000` — the handler variant for the event type
  `subscription_schedule.created`.
* `src/unnamed/part_001` — the handler variant for the event type
  `checkout.session.completed`.

The handlers are pure functions from the request, the data retrieved from
Stripe, and an `FgWorld` record holding the upstream outcome of each Frontegg
call, to either a JavaScript runtime fault (where the source dereferences an
absent sub-structure) or a response together with the ordered list of Frontegg
calls performed.  Signature verification (`stripe.webhooks.constructEvent`) is
modelled by its outcome: `verified = none` means the body/signature pair
failed verification, `verified = some event` means it produced the event.
-/

namespace FsBridge

/-- Little-endian base-10 digit list computed with explicit fuel, so that the
recursion is structural and concrete values reduce in the kernel. -/
def toDigits10 : Nat → Nat → List Nat
  | 0, _ => []
  | fuel + 1, n => if n = 0 then [] else n % 10 :: toDigits10 fuel (n / 10)

/-- Base-10 digits of `n`, little-endian. -/
def natDigits (n : Nat) : List Nat := toDigits10 n n

/-- Decimal rendering of a natural number, as JavaScript prints an integral
number into a template string. -/
def natToString (n : Nat) : String :=
  if n = 0 then "0" else ((natDigits n).reverse.map Nat.digitChar).asString

/-- Model of `new Date(ms).toISOString()` on an integral millisecond
timestamp: an injective rendering of the timestamp.  The calendar text of the
ISO-8601 format is irrelevant to every claim — only which timestamp was
selected matters — so the formatting is abstracted to the decimal rendering of
the milliseconds between fixed markers. -/
def toISOString (ms : Nat) : String := "date:" ++ natToString ms ++ "Z"

/-- JavaScript `a || b` on an optional string: `undefined`, `null` and the
empty string are falsy. -/
def jsOr (v : Option String) (dflt : String) : String :=
  match v with
  | some s => if s = "" then dflt else s
  | none => dflt

/-- An axios failure: `response` is the HTTP status of the upstream response
when one was received (`error.response.status`), and `none` when the request
failed without a response. -/
structure AxiosErr where
  response : Option Nat
deriving DecidableEq

/-- An error thrown by the client module `src/_lib/frontegg.js`: either the
re-thrown axios error (which still carries its `response`) or a fresh
`new Error(msg)`, which has no `response` field at all. -/
inductive FgErr where
  | axios (e : AxiosErr)
  | generic (msg : String)
deriving DecidableEq

/-- A Frontegg user object as consumed by the handlers (`data.id`,
`data.tenantId`). -/
structure FgUser where
  id : String
  tenantId : String
deriving DecidableEq

/-- A Frontegg account (tenant) object as consumed by the handlers
(`data.tenantId`). -/
structure FgAccount where
  tenantId : String
deriving DecidableEq

/-- Client operation `getFronteggToken` (frontegg.js lines 16–27): returns
`data.token` on success; any failure is replaced by
`new Error("Could not authenticate with Frontegg")`. -/
def getFronteggToken (upstream : Except AxiosErr String) : Except FgErr String :=
  match upstream with
  | .ok data => .ok data
  | .error _ => .error (.generic "Could not authenticate with Frontegg")

/-- Client operation `getUserByEmail` (frontegg.js lines 32–48): returns the
user on success; re-throws the axios error itself when
`error.response.status === 404`; replaces every other failure by
`new Error("Error looking up user")`. -/
def getUserByEmail (upstream : Except AxiosErr FgUser) : Except FgErr FgUser :=
  match upstream with
  | .ok data => .ok data
  | .error e =>
    if e.response = some 404 then .error (.axios e)
    else .error (.generic "Error looking up user")

/-- Sanitisation used for the generated tenant id (frontegg.js line 56):
`email.replace(/[^a-zA-Z0-9]/g, "_")`. -/
def sanitizeEmail (email : String) : String :=
  ⟨email.data.map fun c => if c.isAlphanum then c else '_'⟩

/-- The tenant id sent by `createFronteggAccount` (frontegg.js line 56):
`tenant_` + sanitised email + `_` + `Date.now()` in milliseconds. -/
def mkTenantId (email : String) (now : Nat) : String :=
  "tenant_" ++ sanitizeEmail email ++ "_" ++ natToString now

/-- Client operation `createFronteggAccount` (frontegg.js lines 53–80):
returns the created account object on success; any failure is replaced by
`new Error("Error creating Frontegg account")`.  The tenant id it sends is
`mkTenantId email now`; the handlers record it at the call site. -/
def createFronteggAccount (upstream : Except AxiosErr FgAccount) : Except FgErr FgAccount :=
  match upstream with
  | .ok data => .ok data
  | .error _ => .error (.generic "Error creating Frontegg account")

/-- Client operation `createFronteggUser` (frontegg.js lines 85–116): returns
the created user on success; any failure is replaced by
`new Error("Error creating Frontegg user")`.  The name it sends is
`name || "New User"`; the handlers record it at the call site. -/
def createFronteggUser (upstream : Except AxiosErr FgUser) : Except FgErr FgUser :=
  match upstream with
  | .ok data => .ok data
  | .error _ => .error (.generic "Error creating Frontegg user")

/-- Client operation `createEntitlement` (frontegg.js lines 121–147),
signature `(tenantId, userId, planId, expirationDate, token)`: returns the
upstream data on success; any failure is replaced by
`new Error("Error creating entitlement")`. -/
def createEntitlement (upstream : Except AxiosErr Unit) : Except FgErr Unit :=
  match upstream with
  | .ok data => .ok data
  | .error _ => .error (.generic "Error creating entitlement")

/-- The not-found test both handlers apply to a caught error
(`error.response && error.response.status === 404`).  A `generic` error has no
`response` field, so the test is false on it. -/
def isNotFound404 : FgErr → Bool
  | .axios e => e.response = some 404
  | .generic _ => false

/-- One recorded outbound Frontegg call.  The `entitle` record carries the
five arguments of the client operation `createEntitlement` in order
`(tenantId, userId, planId, expirationDate, token)`; an argument a call site
does not supply is `none` (JavaScript `undefined`). -/
inductive Call where
  | auth
  | lookupUser (email : String)
  | createAccount (email : String) (sentTenantId : String)
  | createUser (email : String) (sentName : String) (tenantId : String)
  | entitle (tenantId : String) (userId : Option String) (planId : Option String)
      (expirationDate : Option String) (token : Option String)
deriving DecidableEq

/-- Upstream outcomes of the five Frontegg calls, plus the `Date.now()` value
used when an account is created. -/
structure FgWorld where
  tokenResult : Except AxiosErr String
  lookupResult : Except AxiosErr FgUser
  accountResult : Except AxiosErr FgAccount
  userResult : Except AxiosErr FgUser
  entitlementResult : Except AxiosErr Unit
  now : Nat

/-- Response bodies the handlers produce. -/
inductive Body where
  | methodNotAllowed
  | webhookError
  | received (error : Option String)
  | syncFailed
deriving DecidableEq

/-- An HTTP response: status code and body. -/
structure Response where
  status : Nat
  body : Body
deriving DecidableEq

/-- A JavaScript runtime fault the handler does not catch. -/
inductive Fault where
  | typeError (msg : String)
  | rangeError (msg : String)
deriving DecidableEq

/-- The Frontegg flow of `src/unnamed/part_000` (lines 115–161): token, user
lookup, 404-conditional account+user creation, entitlement creation with
arguments `(tenantId, userId, fronteggFeatureId, validUntil, token)`; any
failure is caught by the outer `catch` and answered with
`500 {error: "Failed to sync with Frontegg"}`. -/
def flow000 (email : String) (name : Option String) (featureId validUntil : String)
    (w : FgWorld) : Response × List Call :=
  match getFronteggToken w.tokenResult with
  | .error _ => (⟨500, .syncFailed⟩, [.auth])
  | .ok token =>
    match getUserByEmail w.lookupResult with
    | .ok existingUser =>
      match createEntitlement w.entitlementResult with
      | .error _ =>
        (⟨500, .syncFailed⟩,
          [.auth, .lookupUser email,
            .entitle existingUser.tenantId (some existingUser.id) (some featureId)
              (some validUntil) (some token)])
      | .ok _ =>
        (⟨200, .received none⟩,
          [.auth, .lookupUser email,
            .entitle existingUser.tenantId (some existingUser.id) (some featureId)
              (some validUntil) (some token)])
    | .error err =>
      if isNotFound404 err then
        match createFronteggAccount w.accountResult with
        | .error _ =>
          (⟨500, .syncFailed⟩,
            [.auth, .lookupUser email, .createAccount email (mkTenantId email w.now)])
        | .ok newAccount =>
          match createFronteggUser w.userResult with
          | .error _ =>
            (⟨500, .syncFailed⟩,
              [.auth, .lookupUser email, .createAccount email (mkTenantId email w.now),
                .createUser email (jsOr name "New User") newAccount.tenantId])
          | .ok newUser =>
            match createEntitlement w.entitlementResult with
            | .error _ =>
              (⟨500, .syncFailed⟩,
                [.auth, .lookupUser email, .createAccount email (mkTenantId email w.now),
                  .createUser email (jsOr name "New User") newAccount.tenantId,
                  .entitle newAccount.tenantId (some newUser.id) (some featureId)
                    (some validUntil) (some token)])
            | .ok _ =>
              (⟨200, .received none⟩,
                [.auth, .lookupUser email, .createAccount email (mkTenantId email w.now),
                  .createUser email (jsOr name "New User") newAccount.tenantId,
                  .entitle newAccount.tenantId (some newUser.id) (some featureId)
                    (some validUntil) (some token)])
      else
        (⟨500, .syncFailed⟩, [.auth, .lookupUser email])

/-- The Frontegg flow of `src/unnamed/part_001` (lines 93–139).  Identical to
`flow000` except for the entitlement call site (line 128), which supplies only
four arguments `(tenantId, fronteggFeatureId, validUntil, token)` to the
five-parameter client operation: the feature id lands in the `userId`
parameter, the expiry string in `planId`, the bearer token in
`expirationDate`, and `token` is `undefined`. -/
def flow001 (email : String) (name : Option String) (featureId validUntil : String)
    (w : FgWorld) : Response × List Call :=
  match getFronteggToken w.tokenResult with
  | .error _ => (⟨500, .syncFailed⟩, [.auth])
  | .ok token =>
    match getUserByEmail w.lookupResult with
    | .ok existingUser =>
      match createEntitlement w.entitlementResult with
      | .error _ =>
        (⟨500, .syncFailed⟩,
          [.auth, .lookupUser email,
            .entitle existingUser.tenantId (some featureId) (some validUntil)
              (some token) none])
      | .ok _ =>
        (⟨200, .received none⟩,
          [.auth, .lookupUser email,
            .entitle existingUser.tenantId (some featureId) (some validUntil)
              (some token) none])
    | .error err =>
      if isNotFound404 err then
        match createFronteggAccount w.accountResult with
        | .error _ =>
          (⟨500, .syncFailed⟩,
            [.auth, .lookupUser email, .createAccount email (mkTenantId email w.now)])
        | .ok newAccount =>
          match createFronteggUser w.userResult with
          | .error _ =>
            (⟨500, .syncFailed⟩,
              [.auth, .lookupUser email, .createAccount email (mkTenantId email w.now),
                .createUser email (jsOr name "New User") newAccount.tenantId])
          | .ok _ =>
            match createEntitlement w.entitlementResult with
            | .error _ =>
              (⟨500, .syncFailed⟩,
                [.auth, .lookupUser email, .createAccount email (mkTenantId email w.now),
                  .createUser email (jsOr name "New User") newAccount.tenantId,
                  .entitle newAccount.tenantId (some featureId) (some validUntil)
                    (some token) none])
            | .ok _ =>
              (⟨200, .received none⟩,
                [.auth, .lookupUser email, .createAccount email (mkTenantId email w.now),
                  .createUser email (jsOr name "New User") newAccount.tenantId,
                  .entitle newAccount.tenantId (some featureId) (some validUntil)
                    (some token) none])
      else
        (⟨500, .syncFailed⟩, [.auth, .lookupUser email])

/-- An item of a subscription-schedule phase (`items[i].price` is the price
id). -/
structure ScheduleItem where
  price : String

/-- A phase of a subscription schedule. -/
structure SchedulePhase where
  items : Option (List ScheduleItem)

/-- The current phase of a subscription schedule (its `end_date` is named by
the comment on part_000 lines 88–89 but never read by the code). -/
structure CurrentPhase where
  end_date : Option Nat

/-- A Stripe subscription-schedule object, with the fields part_000 names. -/
structure Schedule where
  customer : String
  phases : Option (List SchedulePhase)
  current_phase : Option CurrentPhase
  cancel_at : Option Nat
  canceled_at : Option Nat
  current_period_end : Option Nat

/-- A Stripe customer object as retrieved by part_000 line 70. -/
structure Customer where
  email : Option String
  name : Option String

/-- The event produced by signature verification in part_000. -/
structure Event000 where
  type : String
  schedule : Schedule

/-- A request to the part_000 handler: the HTTP method and the outcome of
`stripe.webhooks.constructEvent` on its raw body and signature header
(`none` = signature verification failed). -/
structure Request000 where
  method : String
  verified : Option Event000

/-- The plan map of `src/unnamed/part_000` (lines 22–24). -/
def PLAN_MAP_000 : List (String × String) :=
  [("price_1SMf0eS4gem0F368v4m5Ty7k", "f5fec7df-c09f-40c7-a68e-6905f7ec9574")]

/-- The handler of `src/unnamed/part_000`: method check, signature
verification, then for a `subscription_schedule.created` event: customer
retrieval (the `customer` argument), guarded extraction of the first phase
item and of `schedule.current_period_end` (`!expiryTimestamp` is also true on
`0`), plan-map lookup, email truthiness check, and the Frontegg flow. -/
def handler000 (req : Request000) (customer : Customer) (w : FgWorld) :
    Except Fault (Response × List Call) :=
  if req.method ≠ "POST" then .ok (⟨405, .methodNotAllowed⟩, [])
  else
    match req.verified with
    | none => .ok (⟨400, .webhookError⟩, [])
    | some event =>
      if event.type = "subscription_schedule.created" then
        match event.schedule.phases with
        | none => .ok (⟨200, .received (some "No phases found")⟩, [])
        | some [] => .ok (⟨200, .received (some "No phases found")⟩, [])
        | some (firstPhase :: _) =>
          match firstPhase.items with
          | none => .ok (⟨200, .received (some "No items found in phase")⟩, [])
          | some [] => .ok (⟨200, .received (some "No items found in phase")⟩, [])
          | some (item0 :: _) =>
            match event.schedule.current_period_end with
            | none => .ok (⟨200, .received (some "No expiration date found")⟩, [])
            | some expiryTimestamp =>
              if expiryTimestamp = 0 then
                .ok (⟨200, .received (some "No expiration date found")⟩, [])
              else
                match PLAN_MAP_000.lookup item0.price with
                | none => .ok (⟨200, .received (some "Internal mapping error")⟩, [])
                | some fronteggFeatureId =>
                  match customer.email with
                  | none => .ok (⟨200, .received (some "No email provided")⟩, [])
                  | some email =>
                    if email = "" then
                      .ok (⟨200, .received (some "No email provided")⟩, [])
                    else
                      .ok (flow000 email customer.name fronteggFeatureId
                        (toISOString (expiryTimestamp * 1000)) w)
      else .ok (⟨200, .received none⟩, [])

/-- The `customer_details` object of a checkout session. -/
structure CustomerDetails where
  email : Option String
  name : Option String

/-- The `price` object of a checkout-session line item. -/
structure ItemPrice where
  id : String

/-- A line item of a checkout session. -/
structure LineItem where
  price : ItemPrice

/-- The `line_items` list object of a checkout session. -/
structure LineItems where
  data : List LineItem

/-- A Stripe checkout-session object, with the fields part_001 reads. -/
structure Session where
  customer_details : Option CustomerDetails
  line_items : Option LineItems
  subscription : String

/-- The subscription object part_001 retrieves for the expiry date. -/
structure Subscription where
  current_period_end : Option Nat

/-- The event produced by signature verification in part_001. -/
structure Event001 where
  type : String
  session : Session

/-- A request to the part_001 handler (`none` = signature verification
failed). -/
structure Request001 where
  method : String
  verified : Option Event001

/-- The plan map of `src/unnamed/part_001` (lines 21–24). -/
def PLAN_MAP_001 : List (String × String) :=
  [("price_YOUR_STRIPE_PRICE_ID_1", "frontegg-feature-id-for-plan-1"),
   ("price_YOUR_STRIPE_PRICE_ID_2", "frontegg-feature-id-for-plan-2")]

/-- The handler of `src/unnamed/part_001`.  Its extraction is unguarded:
`session.customer_details.email` throws a TypeError when `customer_details`
is absent, `session.line_items.data[0].price.id` throws when `line_items` is
absent or its `data` is empty, and
`new Date(undefined * 1000).toISOString()` throws a RangeError when the
retrieved subscription has no `current_period_end`.  These faults escape the
handler (they occur outside its try/catch blocks). -/
def handler001 (req : Request001) (subscription : Subscription) (w : FgWorld) :
    Except Fault (Response × List Call) :=
  if req.method ≠ "POST" then .ok (⟨405, .methodNotAllowed⟩, [])
  else
    match req.verified with
    | none => .ok (⟨400, .webhookError⟩, [])
    | some event =>
      if event.type = "checkout.session.completed" then
        match event.session.customer_details with
        | none => .error (.typeError "Cannot read properties of undefined (reading email)")
        | some details =>
          match event.session.line_items with
          | none => .error (.typeError "Cannot read properties of undefined (reading data)")
          | some lineItems =>
            match lineItems.data with
            | [] => .error (.typeError "Cannot read properties of undefined (reading price)")
            | item0 :: _ =>
              match subscription.current_period_end with
              | none => .error (.rangeError "Invalid time value")
              | some expiryTimestamp =>
                match PLAN_MAP_001.lookup item0.price.id with
                | none => .ok (⟨200, .received (some "Internal mapping error")⟩, [])
                | some fronteggFeatureId =>
                  match details.email with
                  | none => .ok (⟨200, .received (some "No email provided")⟩, [])
                  | some email =>
                    if email = "" then
                      .ok (⟨200, .received (some "No email provided")⟩, [])
                    else
                      .ok (flow001 email details.name fronteggFeatureId
                        (toISOString (expiryTimestamp * 1000)) w)
      else .ok (⟨200, .received none⟩, [])

/-! Lemmas: the decimal rendering is injective (via `Nat.digits`), hence so is
the generated tenant id in its clock argument. -/

theorem toDigits10_eq_digits (fuel : Nat) : ∀ n : Nat, n ≤ fuel →
    toDigits10 fuel n = Nat.digits 10 n := by
  induction fuel with
  | zero =>
    intro n h
    have h0 : n = 0 := Nat.le_zero.mp h
    subst h0
    simp [toDigits10]
  | succ fuel ih =>
    intro n h
    by_cases h0 : n = 0
    · subst h0
      simp [toDigits10]
    · simp only [toDigits10, h0, if_false]
      rw [Nat.digits_def' (by norm_num : (1:Nat) < 10) (Nat.pos_of_ne_zero h0)]
      congr 1
      have hlt : n / 10 < n := Nat.div_lt_self (Nat.pos_of_ne_zero h0) (by norm_num)
      exact ih _ (Nat.lt_succ_iff.mp (Nat.lt_of_lt_of_le hlt h))

theorem natDigits_eq_digits (n : Nat) : natDigits n = Nat.digits 10 n :=
  toDigits10_eq_digits n n (Nat.le_refl n)

/-- Inverse of `Nat.digitChar` on decimal digits. -/
def charVal (c : Char) : Nat := c.toNat - 48

theorem charVal_digitChar : ∀ d : Nat, d < 10 → charVal (Nat.digitChar d) = d := by decide

/-- Decode the character list of a decimal rendering back to the number. -/
def decodeData (l : List Char) : Nat := Nat.ofDigits 10 ((l.map charVal).reverse)

theorem decodeData_natToString (n : Nat) : decodeData (natToString n).data = n := by
  by_cases h0 : n = 0
  · subst h0
    simp [decodeData, natToString, charVal, Nat.ofDigits]
  · rw [natToString]
    simp only [h0, if_false]
    have hdata : (((natDigits n).reverse.map Nat.digitChar).asString).data
        = (natDigits n).reverse.map Nat.digitChar := rfl
    rw [decodeData, hdata, List.map_map, List.map_reverse, List.reverse_reverse,
      natDigits_eq_digits]
    have hmap : (Nat.digits 10 n).map (charVal ∘ Nat.digitChar) = Nat.digits 10 n := by
      calc (Nat.digits 10 n).map (charVal ∘ Nat.digitChar)
          = (Nat.digits 10 n).map id :=
            List.map_congr_left fun d hd =>
              charVal_digitChar d (Nat.digits_lt_base (by norm_num) hd)
        _ = Nat.digits 10 n := List.map_id _
    rw [hmap, Nat.ofDigits_digits]

theorem natToString_data_inj {m n : Nat}
    (h : (natToString m).data = (natToString n).data) : m = n := by
  calc m = decodeData (natToString m).data := (decodeData_natToString m).symm
    _ = decodeData (natToString n).data := by rw [h]
    _ = n := decodeData_natToString n

theorem mkTenantId_time_inj (email : String) {t1 t2 : Nat}
    (h : mkTenantId email t1 = mkTenantId email t2) : t1 = t2 := by
  have hd := congrArg String.data h
  simp only [mkTenantId, String.data_append, List.append_assoc] at hd
  exact natToString_data_inj
    (List.append_cancel_left (List.append_cancel_left (List.append_cancel_left hd)))

/-! Lemmas: reduction of each handler to its Frontegg flow on a well-formed
extracted event. -/

theorem handler000_to_flow (s : Schedule) (cust : Customer) (w : FgWorld)
    {p : SchedulePhase} {ps : List SchedulePhase} {it : ScheduleItem}
    {its : List ScheduleItem} {t : Nat} {fid em : String}
    (hp : s.phases = some (p :: ps)) (hi : p.items = some (it :: its))
    (ht : s.current_period_end = some t) (ht0 : t ≠ 0)
    (hm : PLAN_MAP_000.lookup it.price = some fid)
    (he : cust.email = some em) (he0 : em ≠ "") :
    handler000 ⟨"POST", some ⟨"subscription_schedule.created", s⟩⟩ cust w =
      .ok (flow000 em cust.name fid (toISOString (t * 1000)) w) := by
  simp [handler000, hp, hi, ht, ht0, hm, he, he0]

theorem handler001_to_flow (sess : Session) (sub : Subscription) (w : FgWorld)
    {d : CustomerDetails} {li : LineItems} {it : LineItem} {its : List LineItem}
    {t : Nat} {fid em : String}
    (hd : sess.customer_details = some d) (hl : sess.line_items = some li)
    (hdata : li.data = it :: its) (ht : sub.current_period_end = some t)
    (hm : PLAN_MAP_001.lookup it.price.id = some fid)
    (he : d.email = some em) (he0 : em ≠ "") :
    handler001 ⟨"POST", some ⟨"checkout.session.completed", sess⟩⟩ sub w =
      .ok (flow001 em d.name fid (toISOString (t * 1000)) w) := by
  simp [handler001, hd, hl, hdata, ht, hm, he, he0]

/-- Some step of the Frontegg flow fails fatally: authentication, lookup with
a non-404 failure, account or user creation after a lookup 404, or entitlement
creation on a path that reaches the entitlement call. -/
def someStepFatal (w : FgWorld) : Prop :=
  (∃ e, w.tokenResult = .error e) ∨
  (∃ e, w.lookupResult = .error e ∧ e.response ≠ some 404) ∨
  (∃ e, w.lookupResult = .error e ∧ e.response = some 404 ∧
    ∃ e2, w.accountResult = .error e2) ∨
  (∃ e, w.lookupResult = .error e ∧ e.response = some 404 ∧
    (∃ a, w.accountResult = .ok a) ∧ ∃ e2, w.userResult = .error e2) ∨
  (((∃ u, w.lookupResult = .ok u) ∨
    (∃ e, w.lookupResult = .error e ∧ e.response = some 404 ∧
      (∃ a, w.accountResult = .ok a) ∧ ∃ u, w.userResult = .ok u)) ∧
    ∃ e2, w.entitlementResult = .error e2)

theorem flow000_fatal (em : String) (nm : Option String) (fid vu : String)
    (w : FgWorld) (hf : someStepFatal w) :
    ∃ calls, flow000 em nm fid vu w = (⟨500, .syncFailed⟩, calls) := by
  rcases htok : w.tokenResult with etok | tok
  · exact ⟨[.auth], by simp [flow000, getFronteggToken, htok]⟩
  · rcases hlook : w.lookupResult with elook | u
    · by_cases h404 : elook.response = some 404
      · rcases hacct : w.accountResult with eacct | acct
        · exact ⟨[.auth, .lookupUser em, .createAccount em (mkTenantId em w.now)],
            by simp [flow000, getFronteggToken, getUserByEmail, isNotFound404,
              createFronteggAccount, htok, hlook, h404, hacct]⟩
        · rcases huser : w.userResult with euser | usr
          · exact ⟨[.auth, .lookupUser em, .createAccount em (mkTenantId em w.now),
              .createUser em (jsOr nm "New User") acct.tenantId],
              by simp [flow000, getFronteggToken, getUserByEmail, isNotFound404,
                createFronteggAccount, createFronteggUser, htok, hlook, h404, hacct, huser]⟩
          · rcases hent : w.entitlementResult with eent | ent
            · exact ⟨[.auth, .lookupUser em, .createAccount em (mkTenantId em w.now),
                .createUser em (jsOr nm "New User") acct.tenantId,
                .entitle acct.tenantId (some usr.id) (some fid) (some vu) (some tok)],
                by simp [flow000, getFronteggToken, getUserByEmail, isNotFound404,
                  createFronteggAccount, createFronteggUser, createEntitlement,
                  htok, hlook, h404, hacct, huser, hent]⟩
            · exfalso
              rcases hf with ⟨e, he⟩ | ⟨e, he, hne⟩ | ⟨e, he, _, e2, he2⟩ |
                ⟨e, he, _, _, e2, he2⟩ | ⟨_, e2, he2⟩ <;> simp_all
      · exact ⟨[.auth, .lookupUser em],
          by simp [flow000, getFronteggToken, getUserByEmail, isNotFound404,
            htok, hlook, h404]⟩
    · rcases hent : w.entitlementResult with eent | ent
      · exact ⟨[.auth, .lookupUser em,
          .entitle u.tenantId (some u.id) (some fid) (some vu) (some tok)],
          by simp [flow000, getFronteggToken, getUserByEmail, createEntitlement,
            htok, hlook, hent]⟩
      · exfalso
        rcases hf with ⟨e, he⟩ | ⟨e, he, hne⟩ | ⟨e, he, _, e2, he2⟩ |
          ⟨e, he, _, _, e2, he2⟩ | ⟨_, e2, he2⟩ <;> simp_all

theorem flow001_fatal (em : String) (nm : Option String) (fid vu : String)
    (w : FgWorld) (hf : someStepFatal w) :
    ∃ calls, flow001 em nm fid vu w = (⟨500, .syncFailed⟩, calls) := by
  rcases htok : w.tokenResult with etok | tok
  · exact ⟨[.auth], by simp [flow001, getFronteggToken, htok]⟩
  · rcases hlook : w.lookupResult with elook | u
    · by_cases h404 : elook.response = some 404
      · rcases hacct : w.accountResult with eacct | acct
        · exact ⟨[.auth, .lookupUser em, .createAccount em (mkTenantId em w.now)],
            by simp [flow001, getFronteggToken, getUserByEmail, isNotFound404,
              createFronteggAccount, htok, hlook, h404, hacct]⟩
        · rcases huser : w.userResult with euser | usr
          · exact ⟨[.auth, .lookupUser em, .createAccount em (mkTenantId em w.now),
              .createUser em (jsOr nm "New User") acct.tenantId],
              by simp [flow001, getFronteggToken, getUserByEmail, isNotFound404,
                createFronteggAccount, createFronteggUser, htok, hlook, h404, hacct, huser]⟩
          · rcases hent : w.entitlementResult with eent | ent
            · exact ⟨[.auth, .lookupUser em, .createAccount em (mkTenantId em w.now),
                .createUser em (jsOr nm "New User") acct.tenantId,
                .entitle acct.tenantId (some fid) (some vu) (some tok) none],
                by simp [flow001, getFronteggToken, getUserByEmail, isNotFound404,
                  createFronteggAccount, createFronteggUser, createEntitlement,
                  htok, hlook, h404, hacct, huser, hent]⟩
            · exfalso
              rcases hf with ⟨e, he⟩ | ⟨e, he, hne⟩ | ⟨e, he, _, e2, he2⟩ |
                ⟨e, he, _, _, e2, he2⟩ | ⟨_, e2, he2⟩ <;> simp_all
      · exact ⟨[.auth, .lookupUser em],
          by simp [flow001, getFronteggToken, getUserByEmail, isNotFound404,
            htok, hlook, h404]⟩
    · rcases hent : w.entitlementResult with eent | ent
      · exact ⟨[.auth, .lookupUser em,
          .entitle u.tenantId (some fid) (some vu) (some tok) none],
          by simp [flow001, getFronteggToken, getUserByEmail, createEntitlement,
            htok, hlook, hent]⟩
      · exfalso
        rcases hf with ⟨e, he⟩ | ⟨e, he, hne⟩ | ⟨e, he, _, e2, he2⟩ |
          ⟨e, he, _, _, e2, he2⟩ | ⟨_, e2, he2⟩ <;> simp_all

theorem flow000_createAccount_mem {em : String} {nm : Option String} {fid vu : String}
    {w : FgWorld} {em2 tid : String}
    (hmem : Call.createAccount em2 tid ∈ (flow000 em nm fid vu w).2) :
    ∃ e, w.lookupResult = .error e ∧ e.response = some 404 := by
  rcases htok : w.tokenResult with etok | tok
  · exfalso
    simp [flow000, getFronteggToken, htok] at hmem
  · rcases hlook : w.lookupResult with elook | u
    · by_cases h404 : elook.response = some 404
      · exact ⟨elook, rfl, h404⟩
      · exfalso
        simp [flow000, getFronteggToken, getUserByEmail, isNotFound404,
          htok, hlook, h404] at hmem
    · exfalso
      rcases hent : w.entitlementResult with eent | ent <;>
        simp [flow000, getFronteggToken, getUserByEmail, createEntitlement,
          htok, hlook, hent] at hmem

theorem flow001_createAccount_mem {em : String} {nm : Option String} {fid vu : String}
    {w : FgWorld} {em2 tid : String}
    (hmem : Call.createAccount em2 tid ∈ (flow001 em nm fid vu w).2) :
    ∃ e, w.lookupResult = .error e ∧ e.response = some 404 := by
  rcases htok : w.tokenResult with etok | tok
  · exfalso
    simp [flow001, getFronteggToken, htok] at hmem
  · rcases hlook : w.lookupResult with elook | u
    · by_cases h404 : elook.response = some 404
      · exact ⟨elook, rfl, h404⟩
      · exfalso
        simp [flow001, getFronteggToken, getUserByEmail, isNotFound404,
          htok, hlook, h404] at hmem
    · exfalso
      rcases hent : w.entitlementResult with eent | ent <;>
        simp [flow001, getFronteggToken, getUserByEmail, createEntitlement,
          htok, hlook, hent] at hmem

/-! Claim theorems. -/

/-- C1: for a verified handled event whose email already has a user (lookup
succeeds), the handler makes no create-account and no create-user call and
reaches the entitlement step with the existing tenantId/userId, then responds
200.  The part_000 variant does exactly that; the part_001 variant also makes
no creation calls and responds 200, but its entitlement call site drops the
userId argument, so the feature id — not the existing userId "user-1" — lands
in the `userId` parameter of the client operation. -/
theorem C1_existing_user_no_creation :
    handler000 ⟨"POST", some ⟨"subscription_schedule.created",
        ⟨"cus_1", some [⟨some [⟨"price_1SMf0eS4gem0F368v4m5Ty7k"⟩]⟩],
          none, none, none, some 1234⟩⟩⟩
      ⟨some "a@x.com", some "Alice"⟩
      ⟨.ok "tok", .ok ⟨"user-1", "tenant-1"⟩, .ok ⟨"tX"⟩, .ok ⟨"uX", "tX"⟩, .ok (), 9⟩ =
      .ok (⟨200, .received none⟩,
        [.auth, .lookupUser "a@x.com",
          .entitle "tenant-1" (some "user-1") (some "f5fec7df-c09f-40c7-a68e-6905f7ec9574")
            (some (toISOString (1234 * 1000))) (some "tok")]) ∧
    handler001 ⟨"POST", some ⟨"checkout.session.completed",
        ⟨some ⟨some "a@x.com", some "Alice"⟩,
          some ⟨[⟨⟨"price_YOUR_STRIPE_PRICE_ID_1"⟩⟩]⟩, "sub_1"⟩⟩⟩
      ⟨some 1234⟩
      ⟨.ok "tok", .ok ⟨"user-1", "tenant-1"⟩, .ok ⟨"tX"⟩, .ok ⟨"uX", "tX"⟩, .ok (), 9⟩ =
      .ok (⟨200, .received none⟩,
        [.auth, .lookupUser "a@x.com",
          .entitle "tenant-1" (some "frontegg-feature-id-for-plan-1")
            (some (toISOString (1234 * 1000))) (some "tok") none]) ∧
    (some "frontegg-feature-id-for-plan-1" : Option String) ≠ some "user-1" :=
  ⟨rfl, rfl, by decide⟩

/-- C2: for a verified handled event with a known priceId, a present email and
no existing user, the handler should create the account, then the user (with
the extracted display name), then the entitlement for the new tenantId/userId,
and respond 200 {received:true}.  The part_001 variant performs the calls in
that order and responds 200, but its entitlement call site passes only four
arguments to the five-parameter client operation: the feature id lands in the
`userId` parameter (not the created user id "new-user-1"), the expiry string
in `planId`, the bearer token in `expirationDate`, and no token is sent. -/
theorem C2_provisioning_entitle_args :
    handler001 ⟨"POST", some ⟨"checkout.session.completed",
        ⟨some ⟨some "a@x.com", some "Alice"⟩,
          some ⟨[⟨⟨"price_YOUR_STRIPE_PRICE_ID_1"⟩⟩]⟩, "sub_1"⟩⟩⟩
      ⟨some 1234⟩
      ⟨.ok "tok", .error ⟨some 404⟩, .ok ⟨"resp-tenant-1"⟩,
        .ok ⟨"new-user-1", "resp-tenant-1"⟩, .ok (), 99⟩ =
      .ok (⟨200, .received none⟩,
        [.auth, .lookupUser "a@x.com",
          .createAccount "a@x.com" (mkTenantId "a@x.com" 99),
          .createUser "a@x.com" "Alice" "resp-tenant-1",
          .entitle "resp-tenant-1" (some "frontegg-feature-id-for-plan-1")
            (some (toISOString (1234 * 1000))) (some "tok") none]) ∧
    (some "frontegg-feature-id-for-plan-1" : Option String) ≠ some "new-user-1" :=
  ⟨rfl, by decide⟩

/-- C3: extraction should be total over malformed payloads, always yielding a
tagged 200 acknowledgment.  The part_000 variant does tag every absence (no
phases, no items, no expiry timestamp, no email); the part_001 variant instead
throws an uncaught TypeError when `customer_details` or `line_items` is absent
or the line-item list is empty, and an uncaught RangeError when the retrieved
subscription has no expiry timestamp. -/
theorem C3_extraction_totality_divergence :
    handler000 ⟨"POST", some ⟨"subscription_schedule.created",
        ⟨"cus_1", none, none, none, none, some 1234⟩⟩⟩
      ⟨some "a@x.com", some "Alice"⟩
      ⟨.ok "tok", .ok ⟨"u", "t"⟩, .ok ⟨"t"⟩, .ok ⟨"u", "t"⟩, .ok (), 9⟩ =
      .ok (⟨200, .received (some "No phases found")⟩, []) ∧
    handler000 ⟨"POST", some ⟨"subscription_schedule.created",
        ⟨"cus_1", some [⟨none⟩], none, none, none, some 1234⟩⟩⟩
      ⟨some "a@x.com", some "Alice"⟩
      ⟨.ok "tok", .ok ⟨"u", "t"⟩, .ok ⟨"t"⟩, .ok ⟨"u", "t"⟩, .ok (), 9⟩ =
      .ok (⟨200, .received (some "No items found in phase")⟩, []) ∧
    handler000 ⟨"POST", some ⟨"subscription_schedule.created",
        ⟨"cus_1", some [⟨some [⟨"price_1SMf0eS4gem0F368v4m5Ty7k"⟩]⟩],
          none, none, none, none⟩⟩⟩
      ⟨some "a@x.com", some "Alice"⟩
      ⟨.ok "tok", .ok ⟨"u", "t"⟩, .ok ⟨"t"⟩, .ok ⟨"u", "t"⟩, .ok (), 9⟩ =
      .ok (⟨200, .received (some "No expiration date found")⟩, []) ∧
    handler000 ⟨"POST", some ⟨"subscription_schedule.created",
        ⟨"cus_1", some [⟨some [⟨"price_1SMf0eS4gem0F368v4m5Ty7k"⟩]⟩],
          none, none, none, some 1234⟩⟩⟩
      ⟨none, none⟩
      ⟨.ok "tok", .ok ⟨"u", "t"⟩, .ok ⟨"t"⟩, .ok ⟨"u", "t"⟩, .ok (), 9⟩ =
      .ok (⟨200, .received (some "No email provided")⟩, []) ∧
    handler001 ⟨"POST", some ⟨"checkout.session.completed",
        ⟨none, some ⟨[⟨⟨"price_YOUR_STRIPE_PRICE_ID_1"⟩⟩]⟩, "sub_1"⟩⟩⟩
      ⟨some 1234⟩
      ⟨.ok "tok", .ok ⟨"u", "t"⟩, .ok ⟨"t"⟩, .ok ⟨"u", "t"⟩, .ok (), 9⟩ =
      .error (.typeError "Cannot read properties of undefined (reading email)") ∧
    handler001 ⟨"POST", some ⟨"checkout.session.completed",
        ⟨some ⟨some "a@x.com", some "Alice"⟩, none, "sub_1"⟩⟩⟩
      ⟨some 1234⟩
      ⟨.ok "tok", .ok ⟨"u", "t"⟩, .ok ⟨"t"⟩, .ok ⟨"u", "t"⟩, .ok (), 9⟩ =
      .error (.typeError "Cannot read properties of undefined (reading data)") ∧
    handler001 ⟨"POST", some ⟨"checkout.session.completed",
        ⟨some ⟨some "a@x.com", some "Alice"⟩, some ⟨[]⟩, "sub_1"⟩⟩⟩
      ⟨some 1234⟩
      ⟨.ok "tok", .ok ⟨"u", "t"⟩, .ok ⟨"t"⟩, .ok ⟨"u", "t"⟩, .ok (), 9⟩ =
      .error (.typeError "Cannot read properties of undefined (reading price)") ∧
    handler001 ⟨"POST", some ⟨"checkout.session.completed",
        ⟨some ⟨some "a@x.com", some "Alice"⟩,
          some ⟨[⟨⟨"price_YOUR_STRIPE_PRICE_ID_1"⟩⟩]⟩, "sub_1"⟩⟩⟩
      ⟨none⟩
      ⟨.ok "tok", .ok ⟨"u", "t"⟩, .ok ⟨"t"⟩, .ok ⟨"u", "t"⟩, .ok (), 9⟩ =
      .error (.rangeError "Invalid time value") :=
  ⟨rfl, rfl, rfl, rfl, rfl, rfl, rfl, rfl⟩

/-- C4: the claim says an explicit cancellation timestamp takes precedence
over a phase-end date for the entitlement expiry.  The code (part_000 line 90)
uses `schedule.current_period_end` unconditionally, contradicting its own
adjacent comment: with cancel_at = 1111, canceled_at = 2222,
current_phase.end_date = 3333 and current_period_end = 4444 all present, the
entitlement expiry is computed from 4444, not from the cancellation
timestamp. -/
theorem C4_expiry_ignores_cancel_at :
    handler000 ⟨"POST", some ⟨"subscription_schedule.created",
        ⟨"cus_1", some [⟨some [⟨"price_1SMf0eS4gem0F368v4m5Ty7k"⟩]⟩],
          some ⟨some 3333⟩, some 1111, some 2222, some 4444⟩⟩⟩
      ⟨some "a@x.com", some "Alice"⟩
      ⟨.ok "tok", .ok ⟨"user-1", "tenant-1"⟩, .ok ⟨"tX"⟩, .ok ⟨"uX", "tX"⟩, .ok (), 9⟩ =
      .ok (⟨200, .received none⟩,
        [.auth, .lookupUser "a@x.com",
          .entitle "tenant-1" (some "user-1") (some "f5fec7df-c09f-40c7-a68e-6905f7ec9574")
            (some (toISOString (4444 * 1000))) (some "tok")]) ∧
    toISOString (4444 * 1000) ≠ toISOString (1111 * 1000) ∧
    toISOString (4444 * 1000) ≠ toISOString (2222 * 1000) ∧
    toISOString (4444 * 1000) ≠ toISOString (3333 * 1000) :=
  ⟨rfl, by decide, by decide, by decide⟩

/-- C5: a POST whose body/signature pair fails signature verification is
answered 400 and no Frontegg call is performed, in both handler variants. -/
theorem C5_signature_failure_rejected :
    (∀ (cust : Customer) (w : FgWorld),
      handler000 ⟨"POST", none⟩ cust w = .ok (⟨400, .webhookError⟩, [])) ∧
    (∀ (sub : Subscription) (w : FgWorld),
      handler001 ⟨"POST", none⟩ sub w = .ok (⟨400, .webhookError⟩, [])) :=
  ⟨fun _ _ => rfl, fun _ _ => rfl⟩

/-- C6: a verified handled event whose extracted priceId has no entry in the
plan map is acknowledged with 200 {received:true, error:"Internal mapping
error"} and no Frontegg call is made, in both handler variants. -/
theorem C6_unknown_price_acknowledged :
    (∀ (s : Schedule) (cust : Customer) (w : FgWorld) (p : SchedulePhase)
        (ps : List SchedulePhase) (it : ScheduleItem) (its : List ScheduleItem)
        (t : Nat),
      s.phases = some (p :: ps) → p.items = some (it :: its) →
      s.current_period_end = some t → t ≠ 0 →
      PLAN_MAP_000.lookup it.price = none →
      handler000 ⟨"POST", some ⟨"subscription_schedule.created", s⟩⟩ cust w =
        .ok (⟨200, .received (some "Internal mapping error")⟩, [])) ∧
    (∀ (sess : Session) (sub : Subscription) (w : FgWorld) (d : CustomerDetails)
        (li : LineItems) (it : LineItem) (its : List LineItem) (t : Nat),
      sess.customer_details = some d → sess.line_items = some li →
      li.data = it :: its → sub.current_period_end = some t →
      PLAN_MAP_001.lookup it.price.id = none →
      handler001 ⟨"POST", some ⟨"checkout.session.completed", sess⟩⟩ sub w =
        .ok (⟨200, .received (some "Internal mapping error")⟩, [])) := by
  constructor
  · intro s cust w p ps it its t hp hi ht ht0 hm
    simp [handler000, hp, hi, ht, ht0, hm]
  · intro sess sub w d li it its t hcd hli hdata ht hm
    simp [handler001, hcd, hli, hdata, ht, hm]

/-- Witness for C6 at a concrete unmapped price id. -/
theorem C6_witness :
    handler000 ⟨"POST", some ⟨"subscription_schedule.created",
        ⟨"cus_1", some [⟨some [⟨"price_unmapped"⟩]⟩], none, none, none, some 77⟩⟩⟩
      ⟨some "a@x.com", some "Alice"⟩
      ⟨.ok "tok", .error ⟨some 404⟩, .ok ⟨"t1"⟩, .ok ⟨"u1", "t1"⟩, .ok (), 5⟩ =
      .ok (⟨200, .received (some "Internal mapping error")⟩, []) ∧
    handler001 ⟨"POST", some ⟨"checkout.session.completed",
        ⟨some ⟨some "a@x.com", some "Alice"⟩, some ⟨[⟨⟨"price_unmapped"⟩⟩]⟩, "sub_1"⟩⟩⟩
      ⟨some 77⟩
      ⟨.ok "tok", .error ⟨some 404⟩, .ok ⟨"t1"⟩, .ok ⟨"u1", "t1"⟩, .ok (), 5⟩ =
      .ok (⟨200, .received (some "Internal mapping error")⟩, []) :=
  ⟨C6_unknown_price_acknowledged.1 _ _ _ _ _ _ _ _ rfl rfl rfl (by decide) rfl,
   C6_unknown_price_acknowledged.2 _ _ _ _ _ _ _ _ rfl rfl rfl rfl rfl⟩

/-- C7: once a verified handled event enters the Frontegg flow, any fatally
failing step (authentication, a non-404 lookup failure, account or user
creation after a 404, or entitlement creation) makes the handler respond 500
with the sync-failed body — never the 200 acknowledgment — in both
variants. -/
theorem C7_fatal_step_yields_500 :
    (∀ (s : Schedule) (cust : Customer) (w : FgWorld) (p : SchedulePhase)
        (ps : List SchedulePhase) (it : ScheduleItem) (its : List ScheduleItem)
        (t : Nat) (fid em : String),
      s.phases = some (p :: ps) → p.items = some (it :: its) →
      s.current_period_end = some t → t ≠ 0 →
      PLAN_MAP_000.lookup it.price = some fid →
      cust.email = some em → em ≠ "" →
      someStepFatal w →
      ∃ calls, handler000 ⟨"POST", some ⟨"subscription_schedule.created", s⟩⟩ cust w =
        .ok (⟨500, .syncFailed⟩, calls)) ∧
    (∀ (sess : Session) (sub : Subscription) (w : FgWorld) (d : CustomerDetails)
        (li : LineItems) (it : LineItem) (its : List LineItem) (t : Nat)
        (fid em : String),
      sess.customer_details = some d → sess.line_items = some li →
      li.data = it :: its → sub.current_period_end = some t →
      PLAN_MAP_001.lookup it.price.id = some fid →
      d.email = some em → em ≠ "" →
      someStepFatal w →
      ∃ calls, handler001 ⟨"POST", some ⟨"checkout.session.completed", sess⟩⟩ sub w =
        .ok (⟨500, .syncFailed⟩, calls)) := by
  constructor
  · intro s cust w p ps it its t fid em hp hi ht ht0 hm he he0 hf
    obtain ⟨calls, hc⟩ := flow000_fatal em cust.name fid (toISOString (t * 1000)) w hf
    exact ⟨calls, by rw [handler000_to_flow s cust w hp hi ht ht0 hm he he0, hc]⟩
  · intro sess sub w d li it its t fid em hcd hli hdata ht hm he he0 hf
    obtain ⟨calls, hc⟩ := flow001_fatal em d.name fid (toISOString (t * 1000)) w hf
    exact ⟨calls, by rw [handler001_to_flow sess sub w hcd hli hdata ht hm he he0, hc]⟩

/-- Witness for C7: a concrete authentication failure yields the 500
sync-failed response in both variants. -/
theorem C7_witness :
    (∃ calls, handler000 ⟨"POST", some ⟨"subscription_schedule.created",
        ⟨"cus_1", some [⟨some [⟨"price_1SMf0eS4gem0F368v4m5Ty7k"⟩]⟩],
          none, none, none, some 1234⟩⟩⟩
      ⟨some "a@x.com", some "Alice"⟩
      ⟨.error ⟨none⟩, .ok ⟨"u", "t"⟩, .ok ⟨"t"⟩, .ok ⟨"u", "t"⟩, .ok (), 9⟩ =
      .ok (⟨500, .syncFailed⟩, calls)) ∧
    (∃ calls, handler001 ⟨"POST", some ⟨"checkout.session.completed",
        ⟨some ⟨some "a@x.com", some "Alice"⟩,
          some ⟨[⟨⟨"price_YOUR_STRIPE_PRICE_ID_1"⟩⟩]⟩, "sub_1"⟩⟩⟩
      ⟨some 1234⟩
      ⟨.error ⟨none⟩, .ok ⟨"u", "t"⟩, .ok ⟨"t"⟩, .ok ⟨"u", "t"⟩, .ok (), 9⟩ =
      .ok (⟨500, .syncFailed⟩, calls)) :=
  ⟨C7_fatal_step_yields_500.1 _ _ _ _ _ _ _ _ _ _ rfl rfl rfl (by decide) rfl rfl
      (by decide) (Or.inl ⟨⟨none⟩, rfl⟩),
   C7_fatal_step_yields_500.2 _ _ _ _ _ _ _ _ _ _ rfl rfl rfl rfl rfl rfl
      (by decide) (Or.inl ⟨⟨none⟩, rfl⟩)⟩

theorem flow000_lookup404_mem (em : String) (nm : Option String) (fid vu : String)
    (w : FgWorld) {tok : String} {e : AxiosErr}
    (htok : w.tokenResult = .ok tok) (hlook : w.lookupResult = .error e)
    (h404 : e.response = some 404) :
    Call.createAccount em (mkTenantId em w.now) ∈ (flow000 em nm fid vu w).2 := by
  rcases hacct : w.accountResult with eacct | acct
  · simp [flow000, getFronteggToken, getUserByEmail, isNotFound404,
      createFronteggAccount, htok, hlook, h404, hacct]
  · rcases huser : w.userResult with euser | usr
    · simp [flow000, getFronteggToken, getUserByEmail, isNotFound404,
        createFronteggAccount, createFronteggUser, htok, hlook, h404, hacct, huser]
    · rcases hent : w.entitlementResult with eent | ent <;>
        simp [flow000, getFronteggToken, getUserByEmail, isNotFound404,
          createFronteggAccount, createFronteggUser, createEntitlement,
          htok, hlook, h404, hacct, huser, hent]

theorem flow000_lookup_non404 (em : String) (nm : Option String) (fid vu : String)
    (w : FgWorld) {tok : String} {e : AxiosErr}
    (htok : w.tokenResult = .ok tok) (hlook : w.lookupResult = .error e)
    (h404 : e.response ≠ some 404) :
    flow000 em nm fid vu w = (⟨500, .syncFailed⟩, [.auth, .lookupUser em]) := by
  simp [flow000, getFronteggToken, getUserByEmail, isNotFound404, htok, hlook, h404]

/-- C8: the lookup distinguishes outcomes by the specific upstream 404: the
client operation re-throws an axios 404 as-is and wraps every other failure
into a fresh generic error, and the handler enters the provision branch
exactly on a 404 lookup failure, answering 500 after only the auth and lookup
calls on every other lookup failure. -/
theorem C8_lookup_404_routing :
    (∀ e : AxiosErr,
      (e.response = some 404 → getUserByEmail (.error e) = .error (.axios e)) ∧
      (e.response ≠ some 404 →
        getUserByEmail (.error e) = .error (.generic "Error looking up user"))) ∧
    (∀ (s : Schedule) (cust : Customer) (w : FgWorld) (p : SchedulePhase)
        (ps : List SchedulePhase) (it : ScheduleItem) (its : List ScheduleItem)
        (t : Nat) (fid em tok : String) (e : AxiosErr),
      s.phases = some (p :: ps) → p.items = some (it :: its) →
      s.current_period_end = some t → t ≠ 0 →
      PLAN_MAP_000.lookup it.price = some fid →
      cust.email = some em → em ≠ "" →
      w.tokenResult = .ok tok → w.lookupResult = .error e →
      ((e.response = some 404 →
        ∃ r, handler000 ⟨"POST", some ⟨"subscription_schedule.created", s⟩⟩ cust w =
          .ok r ∧ Call.createAccount em (mkTenantId em w.now) ∈ r.2) ∧
       (e.response ≠ some 404 →
        handler000 ⟨"POST", some ⟨"subscription_schedule.created", s⟩⟩ cust w =
          .ok (⟨500, .syncFailed⟩, [.auth, .lookupUser em])))) := by
  constructor
  · intro e
    constructor
    · intro h404
      simp [getUserByEmail, h404]
    · intro h404
      simp [getUserByEmail, h404]
  · intro s cust w p ps it its t fid em tok e hp hi ht ht0 hm he he0 htok hlook
    constructor
    · intro h404
      exact ⟨flow000 em cust.name fid (toISOString (t * 1000)) w,
        handler000_to_flow s cust w hp hi ht ht0 hm he he0,
        flow000_lookup404_mem em cust.name fid (toISOString (t * 1000)) w htok hlook h404⟩
    · intro h404
      rw [handler000_to_flow s cust w hp hi ht ht0 hm he he0,
        flow000_lookup_non404 em cust.name fid (toISOString (t * 1000)) w htok hlook h404]

/-- Witness for C8: a 404 is re-thrown as the axios error, and a concrete
lookup failure with status 500 ends in the 500 sync-failed response after only
the auth and lookup calls. -/
theorem C8_witness :
    getUserByEmail (.error ⟨some 404⟩) = .error (.axios ⟨some 404⟩) ∧
    handler000 ⟨"POST", some ⟨"subscription_schedule.created",
        ⟨"cus_1", some [⟨some [⟨"price_1SMf0eS4gem0F368v4m5Ty7k"⟩]⟩],
          none, none, none, some 1234⟩⟩⟩
      ⟨some "a@x.com", some "Alice"⟩
      ⟨.ok "tok", .error ⟨some 500⟩, .ok ⟨"t"⟩, .ok ⟨"u", "t"⟩, .ok (), 9⟩ =
      .ok (⟨500, .syncFailed⟩, [.auth, .lookupUser "a@x.com"]) :=
  ⟨(C8_lookup_404_routing.1 ⟨some 404⟩).1 rfl,
   (C8_lookup_404_routing.2
      ⟨"cus_1", some [⟨some [⟨"price_1SMf0eS4gem0F368v4m5Ty7k"⟩]⟩],
        none, none, none, some 1234⟩
      ⟨some "a@x.com", some "Alice"⟩
      ⟨.ok "tok", .error ⟨some 500⟩, .ok ⟨"t"⟩, .ok ⟨"u", "t"⟩, .ok (), 9⟩
      ⟨some [⟨"price_1SMf0eS4gem0F368v4m5Ty7k"⟩]⟩ []
      ⟨"price_1SMf0eS4gem0F368v4m5Ty7k"⟩ [] 1234
      "f5fec7df-c09f-40c7-a68e-6905f7ec9574" "a@x.com" "tok" ⟨some 500⟩
      rfl rfl rfl (by decide) rfl rfl (by decide) rfl rfl).2 (by decide)⟩

/-- C9: every client operation other than the lookup converts any upstream
failure into a fresh generic error carrying no response field, on which the
handlers' 404 test is false; consequently the provision branch of either flow
can only be entered when the lookup itself failed with an upstream 404. -/
theorem C9_generic_errors_never_notfound :
    (∀ e : AxiosErr, getFronteggToken (.error e) =
      .error (.generic "Could not authenticate with Frontegg")) ∧
    (∀ e : AxiosErr, createFronteggAccount (.error e) =
      .error (.generic "Error creating Frontegg account")) ∧
    (∀ e : AxiosErr, createFronteggUser (.error e) =
      .error (.generic "Error creating Frontegg user")) ∧
    (∀ e : AxiosErr, createEntitlement (.error e) =
      .error (.generic "Error creating entitlement")) ∧
    (∀ msg : String, isNotFound404 (.generic msg) = false) ∧
    (∀ (em : String) (nm : Option String) (fid vu : String) (w : FgWorld)
        (em2 tid : String),
      Call.createAccount em2 tid ∈ (flow000 em nm fid vu w).2 →
      ∃ e, w.lookupResult = .error e ∧ e.response = some 404) ∧
    (∀ (em : String) (nm : Option String) (fid vu : String) (w : FgWorld)
        (em2 tid : String),
      Call.createAccount em2 tid ∈ (flow001 em nm fid vu w).2 →
      ∃ e, w.lookupResult = .error e ∧ e.response = some 404) :=
  ⟨fun _ => rfl, fun _ => rfl, fun _ => rfl, fun _ => rfl, fun _ => rfl,
   fun _ _ _ _ _ _ _ h => flow000_createAccount_mem h,
   fun _ _ _ _ _ _ _ h => flow001_createAccount_mem h⟩

/-- Witness for C9: in a concrete run of flow000 whose account-creation call
happened, the lookup result was indeed an upstream 404. -/
theorem C9_witness :
    ∃ e, (FgWorld.mk (.ok "tok") (.error ⟨some 404⟩) (.ok ⟨"t1"⟩)
        (.ok ⟨"u1", "t1"⟩) (.ok ()) 5).lookupResult = .error e ∧
      e.response = some 404 :=
  C9_generic_errors_never_notfound.2.2.2.2.2.1 "a@x.com" (some "Alice") "fid" "vu"
    ⟨.ok "tok", .error ⟨some 404⟩, .ok ⟨"t1"⟩, .ok ⟨"u1", "t1"⟩, .ok (), 5⟩
    "a@x.com" (mkTenantId "a@x.com" 5) (by decide)

/-- C10: the tenant id sent at account creation is built as `tenant_` plus the
email with every non-alphanumeric character replaced by `_`, plus `_`, plus
the current clock time in milliseconds; two invocations for the same email at
different clock times therefore send different tenant ids, so account creation
is not idempotent by tenant identifier. -/
theorem C10_tenantId_time_dependent :
    (∀ (email : String) (now : Nat),
      mkTenantId email now = "tenant_" ++ sanitizeEmail email ++ "_" ++ natToString now) ∧
    (∀ (email : String) (t1 t2 : Nat), t1 ≠ t2 →
      mkTenantId email t1 ≠ mkTenantId email t2) :=
  ⟨fun _ _ => rfl, fun email _ _ hne heq => hne (mkTenantId_time_inj email heq)⟩

/-- Witness for C10 at a concrete email and two clock values. -/
theorem C10_witness :
    (1 : Nat) ≠ 2 ∧ mkTenantId "a@x.com" 1 ≠ mkTenantId "a@x.com" 2 :=
  ⟨by decide, C10_tenantId_time_dependent.2 "a@x.com" 1 2 (by decide)⟩

end FsBridge
